import Mathlib

/-!
Verification of the temporal expression-construction module
(`crates/polars-plan/src/dsl/functions/temporal.rs`): the `DatetimeArgs` and
`DurationArgs` builders and the `datetime` / `duration` lowering functions.
The expression type, literal constructor, time unit, function tag and
function-options record are external to that file; they are embedded here
with exactly the structure the module uses.
-/

namespace PolarsTemporal

/-- External closed enumeration `TimeUnit` with the three variants used by the
module. -/
inductive TimeUnit where
  | Milliseconds
  | Microseconds
  | Nanoseconds

/-- External opaque textual time-zone identifier. -/
abbrev TimeZone := String

/-- Literal payloads used by the module: integer literals such as `lit(0)` and
string literals such as `lit(String::from("raise"))`. -/
inductive LiteralValue where
  | int (value : Int)
  | str (value : String)

/-- The tagged temporal function variants the module constructs:
`TemporalFunction::DatetimeFunction { time_unit, time_zone }` and
`TemporalFunction::Duration(time_unit)`. -/
inductive TemporalFunction where
  | DatetimeFunction (time_unit : TimeUnit) (time_zone : Option TimeZone)
  | Duration (time_unit : TimeUnit)

/-- The function-variant wrapper `FunctionExpr::TemporalExpr`. -/
inductive FunctionExpr where
  | TemporalExpr (t : TemporalFunction)

/-- Modelled from the spec: the `FunctionFlags` bit set is defined outside the
source file; the spec's data model lists the two flags the module touches,
`INPUT_WILDCARD_EXPANSION` and `ALLOW_RENAME`, so the set is embedded as one
boolean per flag. -/
structure FunctionFlags where
  input_wildcard_expansion : Bool
  allow_rename : Bool

/-- Modelled from the spec: `FunctionFlags::default()` is defined outside the
source file; per the spec the flag set contains "zero or more" of the two
flags and `duration(...)`, which only adds `INPUT_WILDCARD_EXPANSION` on top
of the default, must not have `ALLOW_RENAME` set, so the default carries
neither flag. -/
def FunctionFlags.default : FunctionFlags :=
  { input_wildcard_expansion := false, allow_rename := false }

/-- The grouping-policy enumeration `ApplyOptions`; `ElementWise` is the only
variant the module uses, the others are external. -/
inductive ApplyOptions where
  | GroupWise
  | ApplyList
  | ElementWise

/-- Modelled from the spec: the `FunctionOptions` record is defined outside the
source file; the spec's `EvaluationOptions` is grouping policy + flag set +
diagnostic label, matching the three fields the module sets
(`collect_groups`, `flags`, `fmt_str`). -/
structure FunctionOptions where
  collect_groups : ApplyOptions
  flags : FunctionFlags
  fmt_str : String

/-- Modelled from the spec: `FunctionOptions::default()` is defined outside
the source file; the default grouping policy is one of the external variants
and the default label is empty. -/
def FunctionOptions.default : FunctionOptions :=
  { collect_groups := ApplyOptions.GroupWise, flags := FunctionFlags.default,
    fmt_str := "" }

/-- Modelled from the spec: the expression node type `Expr` is external and
opaque; only the literal constructor, column references and the
`Expr::Function { input, function, options }` node shape are used by the
module, so those are the embedded constructors. -/
inductive Expr where
  | Literal (value : LiteralValue)
  | Column (name : String)
  | Function (input : List Expr) (function : FunctionExpr) (options : FunctionOptions)

/-- The external literal constructor `lit` applied to an integer. -/
def lit (n : Int) : Expr := Expr.Literal (LiteralValue.int n)

/-- The external literal constructor `lit` applied to a string. -/
def litStr (s : String) : Expr := Expr.Literal (LiteralValue.str s)

/-- Children of a function-call node (`input` field of `Expr::Function`). -/
def Expr.children : Expr → List Expr
  | Expr.Function input _ _ => input
  | _ => []

/-- Tag of a function-call node (`function` field of `Expr::Function`). -/
def Expr.functionTag : Expr → Option FunctionExpr
  | Expr.Function _ f _ => some f
  | _ => none

/-- Options record of a function-call node (`options` field of
`Expr::Function`). -/
def Expr.functionOptions : Expr → Option FunctionOptions
  | Expr.Function _ _ o => some o
  | _ => none

/-- `DatetimeArgs`: one sub-expression per datetime unit plus static
configuration, as declared in the source. -/
structure DatetimeArgs where
  year : Expr
  month : Expr
  day : Expr
  hour : Expr
  minute : Expr
  second : Expr
  microsecond : Expr
  time_unit : TimeUnit
  time_zone : Option TimeZone
  ambiguous : Expr

/-- `impl Default for DatetimeArgs`: epoch date `1970-01-01`, zero time
fields, microsecond unit, no zone, ambiguous policy `"raise"`. -/
def DatetimeArgs.default : DatetimeArgs :=
  { year := lit 1970, month := lit 1, day := lit 1, hour := lit 0,
    minute := lit 0, second := lit 0, microsecond := lit 0,
    time_unit := TimeUnit.Microseconds, time_zone := none,
    ambiguous := litStr "raise" }

/-- `DatetimeArgs::new(year, month, day)`: the three positional fields set,
everything else from `Default::default()`. -/
def DatetimeArgs.new (year month day : Expr) : DatetimeArgs :=
  { DatetimeArgs.default with year := year, month := month, day := day }

/-- `DatetimeArgs::with_hms(hour, minute, second)`. -/
def DatetimeArgs.with_hms (self : DatetimeArgs) (hour minute second : Expr) :
    DatetimeArgs :=
  { self with hour := hour, minute := minute, second := second }

/-- `impl_unit_setter!(with_year(year))`. -/
def DatetimeArgs.with_year (self : DatetimeArgs) (n : Expr) : DatetimeArgs :=
  { self with year := n }

/-- `impl_unit_setter!(with_month(month))`. -/
def DatetimeArgs.with_month (self : DatetimeArgs) (n : Expr) : DatetimeArgs :=
  { self with month := n }

/-- `impl_unit_setter!(with_day(day))`. -/
def DatetimeArgs.with_day (self : DatetimeArgs) (n : Expr) : DatetimeArgs :=
  { self with day := n }

/-- `impl_unit_setter!(with_hour(hour))`. -/
def DatetimeArgs.with_hour (self : DatetimeArgs) (n : Expr) : DatetimeArgs :=
  { self with hour := n }

/-- `impl_unit_setter!(with_minute(minute))`. -/
def DatetimeArgs.with_minute (self : DatetimeArgs) (n : Expr) : DatetimeArgs :=
  { self with minute := n }

/-- `impl_unit_setter!(with_second(second))`. -/
def DatetimeArgs.with_second (self : DatetimeArgs) (n : Expr) : DatetimeArgs :=
  { self with second := n }

/-- `impl_unit_setter!(with_microsecond(microsecond))`. -/
def DatetimeArgs.with_microsecond (self : DatetimeArgs) (n : Expr) : DatetimeArgs :=
  { self with microsecond := n }

/-- `DatetimeArgs::with_time_unit`. -/
def DatetimeArgs.with_time_unit (self : DatetimeArgs) (time_unit : TimeUnit) :
    DatetimeArgs :=
  { self with time_unit := time_unit }

/-- `DatetimeArgs::with_time_zone` (feature `timezones`). -/
def DatetimeArgs.with_time_zone (self : DatetimeArgs)
    (time_zone : Option TimeZone) : DatetimeArgs :=
  { self with time_zone := time_zone }

/-- `DatetimeArgs::with_ambiguous` (feature `timezones`). -/
def DatetimeArgs.with_ambiguous (self : DatetimeArgs) (ambiguous : Expr) :
    DatetimeArgs :=
  { self with ambiguous := ambiguous }

/-- `datetime(args)`: lowering of a `DatetimeArgs` to a function-call node,
children in the fixed order of the source's `input` vector. -/
def datetime (args : DatetimeArgs) : Expr :=
  Expr.Function
    [args.year, args.month, args.day, args.hour, args.minute, args.second,
      args.microsecond, args.ambiguous]
    (FunctionExpr.TemporalExpr
      (TemporalFunction.DatetimeFunction args.time_unit args.time_zone))
    { FunctionOptions.default with
        collect_groups := ApplyOptions.ElementWise,
        flags := { FunctionFlags.default with
                     input_wildcard_expansion := true, allow_rename := true },
        fmt_str := "datetime" }

/-- `DurationArgs`: one sub-expression per duration unit plus the time unit,
as declared in the source. -/
structure DurationArgs where
  weeks : Expr
  days : Expr
  hours : Expr
  minutes : Expr
  seconds : Expr
  milliseconds : Expr
  microseconds : Expr
  nanoseconds : Expr
  time_unit : TimeUnit

/-- `impl Default for DurationArgs`: all eight unit fields `lit(0)`,
microsecond unit. -/
def DurationArgs.default : DurationArgs :=
  { weeks := lit 0, days := lit 0, hours := lit 0, minutes := lit 0,
    seconds := lit 0, milliseconds := lit 0, microseconds := lit 0,
    nanoseconds := lit 0, time_unit := TimeUnit.Microseconds }

/-- `DurationArgs::new()`: `Self::default()`. -/
def DurationArgs.new : DurationArgs := DurationArgs.default

/-- `DurationArgs::with_hms(hours, minutes, seconds)`. -/
def DurationArgs.with_hms (self : DurationArgs) (hours minutes seconds : Expr) :
    DurationArgs :=
  { self with hours := hours, minutes := minutes, seconds := seconds }

/-- `DurationArgs::with_fractional_seconds(milliseconds, microseconds,
nanoseconds)`. -/
def DurationArgs.with_fractional_seconds (self : DurationArgs)
    (milliseconds microseconds nanoseconds : Expr) : DurationArgs :=
  { self with milliseconds := milliseconds, microseconds := microseconds,
              nanoseconds := nanoseconds }

/-- `impl_unit_setter!(with_weeks(weeks))`. -/
def DurationArgs.with_weeks (self : DurationArgs) (n : Expr) : DurationArgs :=
  { self with weeks := n }

/-- `impl_unit_setter!(with_days(days))`. -/
def DurationArgs.with_days (self : DurationArgs) (n : Expr) : DurationArgs :=
  { self with days := n }

/-- `impl_unit_setter!(with_hours(hours))`. -/
def DurationArgs.with_hours (self : DurationArgs) (n : Expr) : DurationArgs :=
  { self with hours := n }

/-- `impl_unit_setter!(with_minutes(minutes))`. -/
def DurationArgs.with_minutes (self : DurationArgs) (n : Expr) : DurationArgs :=
  { self with minutes := n }

/-- `impl_unit_setter!(with_seconds(seconds))`. -/
def DurationArgs.with_seconds (self : DurationArgs) (n : Expr) : DurationArgs :=
  { self with seconds := n }

/-- `impl_unit_setter!(with_milliseconds(milliseconds))`. -/
def DurationArgs.with_milliseconds (self : DurationArgs) (n : Expr) : DurationArgs :=
  { self with milliseconds := n }

/-- `impl_unit_setter!(with_microseconds(microseconds))`. -/
def DurationArgs.with_microseconds (self : DurationArgs) (n : Expr) : DurationArgs :=
  { self with microseconds := n }

/-- `impl_unit_setter!(with_nanoseconds(nanoseconds))`. -/
def DurationArgs.with_nanoseconds (self : DurationArgs) (n : Expr) : DurationArgs :=
  { self with nanoseconds := n }

/-- `duration(args)`: lowering of a `DurationArgs` to a function-call node,
children in the fixed order of the source's `input` vector. -/
def duration (args : DurationArgs) : Expr :=
  Expr.Function
    [args.weeks, args.days, args.hours, args.minutes, args.seconds,
      args.milliseconds, args.microseconds, args.nanoseconds]
    (FunctionExpr.TemporalExpr (TemporalFunction.Duration args.time_unit))
    { FunctionOptions.default with
        collect_groups := ApplyOptions.ElementWise,
        flags := { FunctionFlags.default with
                     input_wildcard_expansion := true } }

/-- Enumeration of the expression-valued single-field setters of
`DatetimeArgs`: the seven `impl_unit_setter!` methods plus `with_ambiguous`. -/
inductive DatetimeField where
  | year
  | month
  | day
  | hour
  | minute
  | second
  | microsecond
  | ambiguous

/-- Dispatch a `DatetimeField` to the corresponding source setter. -/
def DatetimeArgs.setField (self : DatetimeArgs) (f : DatetimeField) (v : Expr) :
    DatetimeArgs :=
  match f with
  | DatetimeField.year => self.with_year v
  | DatetimeField.month => self.with_month v
  | DatetimeField.day => self.with_day v
  | DatetimeField.hour => self.with_hour v
  | DatetimeField.minute => self.with_minute v
  | DatetimeField.second => self.with_second v
  | DatetimeField.microsecond => self.with_microsecond v
  | DatetimeField.ambiguous => self.with_ambiguous v

/-- Enumeration of the expression-valued single-field setters of
`DurationArgs`: the eight `impl_unit_setter!` methods. -/
inductive DurationField where
  | weeks
  | days
  | hours
  | minutes
  | seconds
  | milliseconds
  | microseconds
  | nanoseconds

/-- Dispatch a `DurationField` to the corresponding source setter. -/
def DurationArgs.setField (self : DurationArgs) (f : DurationField) (v : Expr) :
    DurationArgs :=
  match f with
  | DurationField.weeks => self.with_weeks v
  | DurationField.days => self.with_days v
  | DurationField.hours => self.with_hours v
  | DurationField.minutes => self.with_minutes v
  | DurationField.seconds => self.with_seconds v
  | DurationField.milliseconds => self.with_milliseconds v
  | DurationField.microseconds => self.with_microseconds v
  | DurationField.nanoseconds => self.with_nanoseconds v

/-- Claim C1: for every `DatetimeArgs` value `a`, `datetime a` is a
function-call node whose children are exactly the eight expressions
`[a.year, a.month, a.day, a.hour, a.minute, a.second, a.microsecond,
a.ambiguous]` in that order, and whose tag is `DatetimeFunction` carrying
`a.time_unit` and `a.time_zone`. -/
theorem datetime_children_and_tag (a : DatetimeArgs) :
    (datetime a).children =
      [a.year, a.month, a.day, a.hour, a.minute, a.second, a.microsecond,
        a.ambiguous] ∧
    (datetime a).functionTag =
      some (FunctionExpr.TemporalExpr
        (TemporalFunction.DatetimeFunction a.time_unit a.time_zone)) :=
  ⟨rfl, rfl⟩

/-- Claim C2: for every `DurationArgs` value `a`, `duration a` is a
function-call node whose children are exactly the eight expressions
`[a.weeks, a.days, a.hours, a.minutes, a.seconds, a.milliseconds,
a.microseconds, a.nanoseconds]` in that order, and whose tag is `Duration`
carrying only `a.time_unit`. -/
theorem duration_children_and_tag (a : DurationArgs) :
    (duration a).children =
      [a.weeks, a.days, a.hours, a.minutes, a.seconds, a.milliseconds,
        a.microseconds, a.nanoseconds] ∧
    (duration a).functionTag =
      some (FunctionExpr.TemporalExpr (TemporalFunction.Duration a.time_unit)) :=
  ⟨rfl, rfl⟩

/-- Claim C3: the options of the node produced by `datetime a` and by
`duration b` both have grouping policy `ElementWise` and the
`INPUT_WILDCARD_EXPANSION` flag set; the datetime node additionally has
`ALLOW_RENAME` set and diagnostic label `"datetime"`, while the duration
node does not have `ALLOW_RENAME` set. -/
theorem datetime_duration_options (a : DatetimeArgs) (b : DurationArgs) :
    ∃ oa ob : FunctionOptions,
      (datetime a).functionOptions = some oa ∧
      (duration b).functionOptions = some ob ∧
      oa.collect_groups = ApplyOptions.ElementWise ∧
      oa.flags.input_wildcard_expansion = true ∧
      oa.flags.allow_rename = true ∧
      oa.fmt_str = "datetime" ∧
      ob.collect_groups = ApplyOptions.ElementWise ∧
      ob.flags.input_wildcard_expansion = true ∧
      ob.flags.allow_rename = false :=
  ⟨_, _, rfl, rfl, rfl, rfl, rfl, rfl, rfl, rfl, rfl⟩

/-- Claim C4: for all expressions `y`, `m`, `d`, the builder
`DatetimeArgs.new y m d` has `year = y`, `month = m`, `day = d`, and every
other field at its documented default: `hour`, `minute`, `second` and
`microsecond` equal to `lit 0`, `time_unit` equal to `Microseconds`,
`time_zone` equal to `none`, and `ambiguous` equal to `litStr "raise"`. -/
theorem datetimeArgs_new_defaults (y m d : Expr) :
    (DatetimeArgs.new y m d).year = y ∧
    (DatetimeArgs.new y m d).month = m ∧
    (DatetimeArgs.new y m d).day = d ∧
    (DatetimeArgs.new y m d).hour = lit 0 ∧
    (DatetimeArgs.new y m d).minute = lit 0 ∧
    (DatetimeArgs.new y m d).second = lit 0 ∧
    (DatetimeArgs.new y m d).microsecond = lit 0 ∧
    (DatetimeArgs.new y m d).time_unit = TimeUnit.Microseconds ∧
    (DatetimeArgs.new y m d).time_zone = none ∧
    (DatetimeArgs.new y m d).ambiguous = litStr "raise" :=
  ⟨rfl, rfl, rfl, rfl, rfl, rfl, rfl, rfl, rfl, rfl⟩

/-- Claim C5: `DurationArgs.new` is equal to the default value of
`DurationArgs`, and in that value all eight unit fields are `lit 0` and
`time_unit` is `Microseconds`. -/
theorem durationArgs_new_eq_default :
    DurationArgs.new = DurationArgs.default ∧
    DurationArgs.new.weeks = lit 0 ∧
    DurationArgs.new.days = lit 0 ∧
    DurationArgs.new.hours = lit 0 ∧
    DurationArgs.new.minutes = lit 0 ∧
    DurationArgs.new.seconds = lit 0 ∧
    DurationArgs.new.milliseconds = lit 0 ∧
    DurationArgs.new.microseconds = lit 0 ∧
    DurationArgs.new.nanoseconds = lit 0 ∧
    DurationArgs.new.time_unit = TimeUnit.Microseconds :=
  ⟨rfl, rfl, rfl, rfl, rfl, rfl, rfl, rfl, rfl, rfl⟩

/-- Claim C6: `DatetimeArgs.with_hms h m s` replaces exactly `hour`,
`minute`, `second` and leaves every other field at its prior value, and
`DurationArgs.with_hms h m s` replaces exactly `hours`, `minutes`, `seconds`
and leaves every other field at its prior value. -/
theorem with_hms_replaces_exactly_three (a : DatetimeArgs) (b : DurationArgs)
    (h m s : Expr) :
    ((a.with_hms h m s).hour = h ∧
     (a.with_hms h m s).minute = m ∧
     (a.with_hms h m s).second = s ∧
     (a.with_hms h m s).year = a.year ∧
     (a.with_hms h m s).month = a.month ∧
     (a.with_hms h m s).day = a.day ∧
     (a.with_hms h m s).microsecond = a.microsecond ∧
     (a.with_hms h m s).time_unit = a.time_unit ∧
     (a.with_hms h m s).time_zone = a.time_zone ∧
     (a.with_hms h m s).ambiguous = a.ambiguous) ∧
    ((b.with_hms h m s).hours = h ∧
     (b.with_hms h m s).minutes = m ∧
     (b.with_hms h m s).seconds = s ∧
     (b.with_hms h m s).weeks = b.weeks ∧
     (b.with_hms h m s).days = b.days ∧
     (b.with_hms h m s).milliseconds = b.milliseconds ∧
     (b.with_hms h m s).microseconds = b.microseconds ∧
     (b.with_hms h m s).nanoseconds = b.nanoseconds ∧
     (b.with_hms h m s).time_unit = b.time_unit) :=
  ⟨⟨rfl, rfl, rfl, rfl, rfl, rfl, rfl, rfl, rfl, rfl⟩,
   ⟨rfl, rfl, rfl, rfl, rfl, rfl, rfl, rfl, rfl⟩⟩

/-- Claim C7: the grouped setters equal the composition of the three
corresponding single-field setters: `DatetimeArgs.with_hms h m s` equals
`with_hour h`, `with_minute m`, `with_second s` in sequence;
`DurationArgs.with_hms` and `DurationArgs.with_fractional_seconds`
likewise decompose. -/
theorem grouped_setters_eq_composition (a : DatetimeArgs) (b : DurationArgs)
    (h m s ms us ns : Expr) :
    a.with_hms h m s = ((a.with_hour h).with_minute m).with_second s ∧
    b.with_hms h m s = ((b.with_hours h).with_minutes m).with_seconds s ∧
    b.with_fractional_seconds ms us ns =
      ((b.with_milliseconds ms).with_microseconds us).with_nanoseconds ns :=
  ⟨rfl, rfl, rfl⟩

/-- Claim C8: last-write-wins — for every builder value, every
expression-valued single-field setter of `DatetimeArgs` or `DurationArgs`
and all expressions `v1`, `v2`, applying the same setter twice yields the
same builder as applying it once with the final value. -/
theorem setter_last_write_wins :
    (∀ (a : DatetimeArgs) (f : DatetimeField) (v1 v2 : Expr),
        (a.setField f v1).setField f v2 = a.setField f v2) ∧
    (∀ (b : DurationArgs) (f : DurationField) (v1 v2 : Expr),
        (b.setField f v1).setField f v2 = b.setField f v2) := by
  constructor
  · intro a f v1 v2
    cases f <;> rfl
  · intro b f v1 v2
    cases f <;> rfl

/-- Claim C9: Scenario A — lowering
`(DatetimeArgs.new (lit 1969) (lit 7) (lit 20)).with_hms (lit 20) (lit 17)
(lit 0)` produces a node whose children are the literals
`[1969, 7, 20, 20, 17, 0, 0, "raise"]` in that order and whose tag is
`DatetimeFunction` with `Microseconds` and no time zone. -/
theorem scenario_a_apollo :
    (datetime ((DatetimeArgs.new (lit 1969) (lit 7) (lit 20)).with_hms
        (lit 20) (lit 17) (lit 0))).children =
      [lit 1969, lit 7, lit 20, lit 20, lit 17, lit 0, lit 0,
        litStr "raise"] ∧
    (datetime ((DatetimeArgs.new (lit 1969) (lit 7) (lit 20)).with_hms
        (lit 20) (lit 17) (lit 0))).functionTag =
      some (FunctionExpr.TemporalExpr
        (TemporalFunction.DatetimeFunction TimeUnit.Microseconds none)) :=
  ⟨rfl, rfl⟩

/-- Claim C10: the standalone default value of `DatetimeArgs` sets `year` to
the literal `1970`, `month` to the literal `1` and `day` to the literal `1`
— the Unix epoch date — not to the literal `0`. -/
theorem datetimeArgs_default_is_epoch :
    DatetimeArgs.default.year = lit 1970 ∧
    DatetimeArgs.default.month = lit 1 ∧
    DatetimeArgs.default.day = lit 1 ∧
    DatetimeArgs.default.year ≠ lit 0 ∧
    DatetimeArgs.default.month ≠ lit 0 ∧
    DatetimeArgs.default.day ≠ lit 0 := by
  refine ⟨rfl, rfl, rfl, ?_, ?_, ?_⟩ <;> simp [DatetimeArgs.default, lit]

end PolarsTemporal
